import Mathlib

/-!
Shallow embedding of the frequenz-client-base core:
the reconnecting fan-out bridge `GrpcStreamBroadcaster`
(src/frequenz/client/base/streaming.py) and the one-shot call wrapper
`call_stub_method` (src/frequenz/client/base/client.py).

The broadcaster is modelled as a small-step state machine whose atomic
steps correspond to the pump coroutine's progress between suspension
points, under the single-threaded cooperative scheduling the code runs
under (asyncio).  The producer factory (`stream_method`) is modelled by a
script: a list of connection attempts, each attempt being a finite list of
items followed by a termination reason (clean exhaustion, a transport
level `grpc.aio.AioRpcError`, or any other exception raised by the
producer sequence or by `transform`).  The retry strategy is modelled
abstractly as a function from the number of `next_interval()` calls made
since the last `reset()` to the response of the next call (`none` is the
terminal signal), exactly the interface `_run` uses.
-/

set_option autoImplicit false

namespace FrequenzClientBase

/-- How a single connection attempt of the producer sequence terminates:
clean exhaustion of the stream, a transport-level `grpc.aio.AioRpcError`
raised during iteration, or any other exception (raised by the producer
sequence or by the `transform` function). -/
inductive Reason where
  | exhausted
  | grpcError
  | otherError
deriving DecidableEq

/-- One scripted connection attempt: the items the producer sequence
yields (in order) before it terminates, and the way it terminates. -/
structure Attempt (I : Type) where
  items : List I
  reason : Reason
deriving DecidableEq

/-- Observable events emitted by the broadcaster, mirroring the log
statements of streaming.py and the strategy `reset()` call:
`startingToStream` is the info log at the top of the pump loop (line 106),
`retryScheduled` the warning log before sleeping (lines 124-131),
`gaveUp` the error log on the terminal-signal path (lines 116-121),
`restartWarning` the warning logged by `new_receiver` when the channel is
closed (lines 82-84), and `strategyReset` records the
`self._retry_strategy.reset()` call in `start` (line 66). -/
inductive Event where
  | startingToStream
  | retryScheduled (interval : Nat)
  | gaveUp
  | restartWarning
  | strategyReset
deriving DecidableEq

/-- The phase of the pump coroutine `_run` between suspension points:
`loopTop` is the top of the `while True` loop (about to log and invoke the
producer factory), `sending` is iterating the current attempt's remaining
items and forwarding them, `sleeping` is `asyncio.sleep(interval)` before
the next attempt, and `blocked` models the pump awaiting a producer for
which the script provides no further attempt. -/
inductive Pump (I : Type) where
  | loopTop
  | sending (pending : List I) (reason : Reason)
  | sleeping (interval : Nat)
  | blocked
deriving DecidableEq

/-- The state of the `self._task` slot: no task yet, a running pump in a
given phase, a pump that returned normally (after closing the channel on
the terminal-signal path), a pump cancelled by `stop()`, or a pump that
terminated with an uncaught (non-`AioRpcError`) exception. -/
inductive TaskState (I : Type) where
  | noTask
  | running (p : Pump I)
  | doneOk
  | cancelled
  | crashed
deriving DecidableEq

/-- The current Broadcast channel: its closed flag and one buffer per
receiver, in receiver-creation order.  A buffer holds, in order, every
item delivered to that receiver. -/
structure Chan (O : Type) where
  closed : Bool
  buffers : List (List O)
deriving DecidableEq

/-- A receiver handle returned by `new_receiver`: the generation of the
channel it is bound to (incremented each time `start` replaces the
channel) and the index of its buffer in that channel. -/
structure ReceiverHandle where
  gen : Nat
  idx : Nat
deriving DecidableEq

/-- The whole `GrpcStreamBroadcaster` state: the `transform` function,
the retry strategy (response of the k-th `next_interval()` call since the
last `reset()`), the number of `next_interval()` calls made since the last
reset, the channel generation counter, the current channel, the script of
future connection attempts the producer factory will yield, the pump task
slot, and the trace of observable events. -/
structure Broadcaster (I O : Type) where
  transform : I → O
  strategy : Nat → Option Nat
  calls : Nat
  gen : Nat
  chan : Chan O
  future : List (Attempt I)
  task : TaskState I
  events : List Event

/-- Whether a live pump task exists: the code's
`self._task is not None and not self._task.done()` check. -/
def taskAlive {I O : Type} (b : Broadcaster I O) : Bool :=
  match b.task with
  | .running _ => true
  | _ => false

/-- One atomic step of the pump coroutine `_run` (lines 100-131).  At the
top of the loop it logs "starting to stream" and invokes the producer
factory; while an attempt yields items it transforms and sends each one,
appending it to every receiver's buffer; when the attempt ends it either
escapes with a non-transport exception (nothing caught, nothing closed),
or consults `next_interval()`: `none` logs the give-up, closes the channel
and exits, `some d` logs the retry and sleeps `d` before looping.  A
non-running task takes no step. -/
def pumpStep {I O : Type} (b : Broadcaster I O) : Broadcaster I O :=
  match b.task with
  | .running .loopTop =>
      match b.future with
      | [] => { b with events := b.events ++ [.startingToStream],
                       task := .running .blocked }
      | a :: rest =>
          { b with events := b.events ++ [.startingToStream],
                   future := rest,
                   task := .running (.sending a.items a.reason) }
  | .running (.sending (x :: xs) r) =>
      { b with chan := { b.chan with
                         buffers := b.chan.buffers.map
                           (fun q => q ++ [b.transform x]) },
               task := .running (.sending xs r) }
  | .running (.sending [] r) =>
      match r with
      | .otherError => { b with task := .crashed }
      | _ =>
          match b.strategy b.calls with
          | none =>
              { b with calls := b.calls + 1,
                       events := b.events ++ [.gaveUp],
                       chan := { b.chan with closed := true },
                       task := .doneOk }
          | some d =>
              { b with calls := b.calls + 1,
                       events := b.events ++ [.retryScheduled d],
                       task := .running (.sleeping d) }
  | .running (.sleeping _) => { b with task := .running .loopTop }
  | .running .blocked => b
  | _ => b

/-- Iterate `pumpStep` n times. -/
def runSteps {I O : Type} : Nat → Broadcaster I O → Broadcaster I O
  | 0, b => b
  | n + 1, b => runSteps n (pumpStep b)

/-- `start` (lines 58-70): no-op when a pump is already running;
otherwise reset the strategy, spawn the pump and replace the channel with
a fresh open one (under cooperative scheduling the spawned pump first runs
after `start` returns, so it is bound to the new channel). -/
def start {I O : Type} (b : Broadcaster I O) : Broadcaster I O :=
  if taskAlive b then b
  else
    { b with calls := 0,
             events := b.events ++ [.strategyReset],
             task := .running .loopTop,
             gen := b.gen + 1,
             chan := { closed := false, buffers := [] } }

/-- `new_receiver` (lines 72-87): when the current channel is closed, log
the restart warning and call `start`; then register a new (empty) receiver
buffer on the current channel and return its handle.  The per-receiver
buffer bound `maxsize` only throttles the sender and never drops items, so
it does not appear in the delivered-items model. -/
def new_receiver {I O : Type} (b : Broadcaster I O) :
    Broadcaster I O × ReceiverHandle :=
  let b1 := if b.chan.closed then
      start { b with events := b.events ++ [.restartWarning] }
    else b
  (⟨b1.transform, b1.strategy, b1.calls, b1.gen,
    { b1.chan with buffers := b1.chan.buffers ++ [[]] },
    b1.future, b1.task, b1.events⟩,
   ⟨b1.gen, b1.chan.buffers.length⟩)

/-- `stop` (lines 89-98): no-op when no live pump exists; otherwise
cancel the pump, await it swallowing the `CancelledError`, then close the
channel.  The cancelled pump takes no further step of its own. -/
def stop {I O : Type} (b : Broadcaster I O) : Broadcaster I O :=
  if taskAlive b then
    { b with task := .cancelled,
             chan := { b.chan with closed := true } }
  else b

/-- `__init__` (lines 30-56): record the configuration and call
`start()`.  The channel slot is declared unassigned; the placeholder
closed channel here is immediately replaced by `start` since no task
exists yet. -/
def mkBroadcaster {I O : Type} (transform : I → O)
    (strategy : Nat → Option Nat) (future : List (Attempt I)) :
    Broadcaster I O :=
  start ⟨transform, strategy, 0, 0, ⟨true, []⟩, future, .noTask, []⟩

/-- A broadcaster whose pump is at the top of its loop, with an open
channel holding the given receiver buffers: the state right after `start`
once receivers have registered, used to state per-run theorems. -/
def withPump {I O : Type} (t : I → O) (strat : Nat → Option Nat)
    (c g : Nat) (bufs : List (List O)) (ev : List Event)
    (atts : List (Attempt I)) : Broadcaster I O :=
  ⟨t, strat, c, g, ⟨false, bufs⟩, atts, .running .loopTop, ev⟩

/-- Task states from which the pump makes no further progress. -/
def halted {I : Type} : TaskState I → Bool
  | .running .blocked => true
  | .running _ => false
  | _ => true

lemma pumpStep_halted {I O : Type} (b : Broadcaster I O)
    (h : halted b.task = true) : pumpStep b = b := by
  unfold pumpStep
  unfold halted at h
  rcases hb : b.task with _ | p | _ | _ | _
  · simp
  · rw [hb] at h
    cases p <;> simp_all
  · simp
  · simp
  · simp

lemma runSteps_halted {I O : Type} (b : Broadcaster I O)
    (h : halted b.task = true) : ∀ n, runSteps n b = b := by
  intro n
  induction n with
  | zero => rfl
  | succ n ih => rw [runSteps, pumpStep_halted b h, ih]

lemma runSteps_add {I O : Type} (m n : Nat) (b : Broadcaster I O) :
    runSteps (m + n) b = runSteps n (runSteps m b) := by
  induction m generalizing b with
  | zero => rw [Nat.zero_add]; rfl
  | succ m ih =>
      have : m + 1 + n = (m + n) + 1 := by omega
      rw [this]
      show runSteps (m + n) (pumpStep b) = runSteps n (runSteps m (pumpStep b))
      exact ih (pumpStep b)

/-- Running the pump through the item-forwarding phase of an attempt:
each pending item is transformed and appended to every receiver buffer, in
order; nothing else changes. -/
lemma runSteps_sending {I O : Type} (xs : List I) :
    ∀ (b : Broadcaster I O) (r : Reason),
    b.task = .running (.sending xs r) →
    runSteps xs.length b =
      { b with chan := { b.chan with
                         buffers := b.chan.buffers.map
                           (fun q => q ++ xs.map b.transform) },
               task := .running (.sending [] r) } := by
  induction xs with
  | nil =>
      intro b r h
      show b = _
      rcases b with ⟨t, s, c, g, ⟨cl, bufs⟩, f, tk, ev⟩
      simp only at h
      subst h
      simp
  | cons x xs ih =>
      intro b r h
      have hstep : pumpStep b =
          { b with chan := { b.chan with
                             buffers := b.chan.buffers.map
                               (fun q => q ++ [b.transform x]) },
                   task := .running (.sending xs r) } := by
        unfold pumpStep
        rw [h]
      have hlen : (x :: xs).length = 1 + xs.length := by simp [Nat.add_comm]
      rw [hlen, runSteps_add, ]
      show runSteps xs.length (runSteps 1 b) = _
      have h1 : runSteps 1 b = pumpStep b := rfl
      rw [h1, hstep]
      rw [ih _ r rfl]
      simp [List.map_map, Function.comp]

/-- Pump states whose remaining producer behavior only terminates in
clean exhaustion or transport-level errors and whose pump has not crashed;
additionally, a pump that has already returned normally has closed its
channel. -/
def transportOnly {I O : Type} (b : Broadcaster I O) : Bool :=
  b.future.all (fun a => a.reason != .otherError) &&
  (match b.task with
   | .running (.sending _ r) => r != .otherError
   | .crashed => false
   | .doneOk => b.chan.closed
   | _ => true)

lemma transportOnly_step {I O : Type} (b : Broadcaster I O)
    (h : transportOnly b = true) : transportOnly (pumpStep b) = true := by
  unfold transportOnly at h ⊢
  unfold pumpStep
  rcases hb : b.task with _ | p | _ | _ | _ <;> rw [hb] at h
  case noTask => simp_all
  case doneOk => simp_all
  case cancelled => simp_all
  case crashed => simp_all
  case running =>
    rcases p with _ | ⟨xs, r⟩ | d | _
    case loopTop =>
        rcases hf : b.future with _ | ⟨a, rest⟩ <;> rw [hf] at h <;> simp_all
    case sending =>
        rcases xs with _ | ⟨x, xs⟩
        · rcases r with _ | _ | _ <;> simp_all
          all_goals rcases hs : b.strategy b.calls with _ | d <;> simp_all
        · simp_all
    case sleeping => simp_all
    case blocked => simp_all

/-- C1: during a single connection attempt in which the producer yields
`xs` and then terminates cleanly, the pump delivers to every receiver
buffer that existed before the attempt exactly `xs.map transform`: the
transformed items, in the producer's order, each exactly once, appended
to whatever the buffer already held; the channel stays open and the pump
does not crash. -/
theorem fanout_single_attempt {I O : Type} (t : I → O)
    (strat : Nat → Option Nat) (c g : Nat) (bufs : List (List O))
    (ev : List Event) (xs : List I) (rest : List (Attempt I)) :
    (runSteps (xs.length + 1)
        (withPump t strat c g bufs ev (⟨xs, .exhausted⟩ :: rest))).chan.buffers
      = bufs.map (fun q => q ++ xs.map t) ∧
    (runSteps (xs.length + 1)
        (withPump t strat c g bufs ev (⟨xs, .exhausted⟩ :: rest))).chan.closed
      = false ∧
    (runSteps (xs.length + 1)
        (withPump t strat c g bufs ev (⟨xs, .exhausted⟩ :: rest))).task
      = .running (.sending [] .exhausted) := by
  have h1 : runSteps (xs.length + 1)
      (withPump t strat c g bufs ev (⟨xs, .exhausted⟩ :: rest)) =
      runSteps xs.length
        (⟨t, strat, c, g, ⟨false, bufs⟩, rest,
          .running (.sending xs .exhausted), ev ++ [.startingToStream]⟩ :
          Broadcaster I O) := rfl
  rw [h1, runSteps_sending xs _ .exhausted rfl]
  simp

/-- A broadcaster with one registered receiver, a strategy that always
retries, and a producer whose single attempt immediately raises
a non-transport-level (non-AioRpcError) exception. -/
def escapeCex : Broadcaster Nat Nat :=
  withPump (fun n => n) (fun _ => some 0) 0 0 [[]] [] [⟨[], .otherError⟩]

/-- C2 counterexample: the pump does let an error raised during stream
consumption escape its activity boundary.  On a producer attempt that
raises a non-transport error, the pump task terminates crashed, the
channel is left open (consumers never observe a terminal channel-closed
event from this run), the give-up event is never logged, and the strategy
is never consulted. -/
theorem pump_error_escape_cex :
    (runSteps 2 escapeCex).task = .crashed ∧
    (runSteps 2 escapeCex).chan.closed = false ∧
    Event.gaveUp ∉ (runSteps 2 escapeCex).events ∧
    (runSteps 2 escapeCex).calls = 0 := by
  refine ⟨rfl, rfl, ?_, rfl⟩
  decide

/-- C2 amended: for every *transport-level* (grpc AioRpcError) error or
clean exhaustion of the producer sequence, the pump catches it, consults
the policy and retries or closes: on any run whose attempts all end in
clean exhaustion or transport errors, the pump never terminates with an
escaped exception, and whenever the pump has terminated normally the
channel is closed, so consumers only ever observe channel-closed as their
terminal event. -/
theorem pump_transport_errors_contained {I O : Type} (b : Broadcaster I O)
    (h : transportOnly b = true) (n : Nat) :
    (runSteps n b).task ≠ .crashed ∧
    ((runSteps n b).task = .doneOk → (runSteps n b).chan.closed = true) := by
  have hall : transportOnly (runSteps n b) = true := by
    induction n generalizing b with
    | zero => exact h
    | succ n ih => exact ih (pumpStep b) (transportOnly_step b h)
  unfold transportOnly at hall
  constructor
  · intro hc
    rw [hc] at hall
    simp at hall
  · intro hd
    rw [hd] at hall
    simp at hall
    exact hall.2

theorem pump_transport_errors_contained_witness :
    (runSteps 3 (withPump (fun n => n) (fun _ => none) 0 0 [[]] []
        [⟨[2], .grpcError⟩] : Broadcaster Nat Nat)).task ≠ .crashed ∧
    ((runSteps 3 (withPump (fun n => n) (fun _ => none) 0 0 [[]] []
        [⟨[2], .grpcError⟩] : Broadcaster Nat Nat)).task = .doneOk →
      (runSteps 3 (withPump (fun n => n) (fun _ => none) 0 0 [[]] []
        [⟨[2], .grpcError⟩] : Broadcaster Nat Nat)).chan.closed = true) :=
  pump_transport_errors_contained _ (by decide) 3

/-- The consult step of `_run` when `next_interval()` (the response to
the `c`-th call since reset) is the terminal signal: the give-up is
logged, the channel closed and the pump exits normally. -/
lemma pumpStep_giveup {I O : Type} (t : I → O) (strat : Nat → Option Nat)
    (c g : Nat) (cl : Bool) (bufs : List (List O)) (rest : List (Attempt I))
    (ev : List Event) (r : Reason) (hr : r ≠ .otherError)
    (hs : strat c = none) :
    pumpStep (⟨t, strat, c, g, ⟨cl, bufs⟩, rest, .running (.sending [] r),
        ev⟩ : Broadcaster I O) =
      ⟨t, strat, c + 1, g, ⟨true, bufs⟩, rest, .doneOk,
        ev ++ [.gaveUp]⟩ := by
  rcases r with _ | _ | _
  · simp [pumpStep, hs]
  · simp [pumpStep, hs]
  · exact absurd rfl hr

/-- C3: when the strategy's first consultation after an ended attempt
(clean exhaustion or transport error alike) returns the terminal signal,
then after exactly that one attempt the pump logs the give-up, closes the
channel and exits normally: the strategy was consulted exactly once, the
attempt's items were delivered, and from then on the pump takes no
further step, so no further item is ever delivered and consumers observe
an ordinary stream end (a closed channel and a normally-returned task),
not a crashed task. -/
theorem strategy_exhausted_closes {I O : Type} (t : I → O)
    (strat : Nat → Option Nat) (g : Nat) (bufs : List (List O))
    (ev : List Event) (xs : List I) (r : Reason) (rest : List (Attempt I))
    (hr : r ≠ .otherError) (hs : strat 0 = none) :
    runSteps (xs.length + 2) (withPump t strat 0 g bufs ev (⟨xs, r⟩ :: rest))
      = ⟨t, strat, 1, g, ⟨true, bufs.map (fun q => q ++ xs.map t)⟩, rest,
          .doneOk, ev ++ [.startingToStream] ++ [.gaveUp]⟩ ∧
    ∀ m, runSteps m (runSteps (xs.length + 2)
        (withPump t strat 0 g bufs ev (⟨xs, r⟩ :: rest))) =
      runSteps (xs.length + 2)
        (withPump t strat 0 g bufs ev (⟨xs, r⟩ :: rest)) := by
  have key : runSteps (xs.length + 2)
      (withPump t strat 0 g bufs ev (⟨xs, r⟩ :: rest)) =
      ⟨t, strat, 1, g, ⟨true, bufs.map (fun q => q ++ xs.map t)⟩, rest,
        .doneOk, ev ++ [.startingToStream] ++ [.gaveUp]⟩ := by
    have e1 : runSteps (xs.length + 2)
        (withPump t strat 0 g bufs ev (⟨xs, r⟩ :: rest)) =
        runSteps 1 (runSteps xs.length
          (⟨t, strat, 0, g, ⟨false, bufs⟩, rest, .running (.sending xs r),
            ev ++ [.startingToStream]⟩ : Broadcaster I O)) := by
      have h := runSteps_add (xs.length + 1) 1
        (withPump t strat 0 g bufs ev (⟨xs, r⟩ :: rest))
      rw [show xs.length + 1 + 1 = xs.length + 2 by omega] at h
      exact h
    rw [e1, runSteps_sending xs
      (⟨t, strat, 0, g, ⟨false, bufs⟩, rest, .running (.sending xs r),
        ev ++ [Event.startingToStream]⟩ : Broadcaster I O) r rfl]
    exact pumpStep_giveup t strat 0 g false
      (bufs.map (fun q => q ++ xs.map t)) rest
      (ev ++ [Event.startingToStream]) r hr hs
  refine ⟨key, ?_⟩
  intro m
  rw [key]
  refine runSteps_halted _ ?_ m
  rfl

theorem strategy_exhausted_closes_witness :
    runSteps 3 (withPump (fun n => n + 1) (fun _ => none) 0 0 [[]] []
        [⟨[5], .grpcError⟩] : Broadcaster Nat Nat)
      = ⟨fun n => n + 1, fun _ => none, 1, 0,
          ⟨true, [[]].map (fun q => q ++ [5].map (fun n => n + 1))⟩, [],
          .doneOk, [] ++ [.startingToStream] ++ [.gaveUp]⟩ ∧
    ∀ m, runSteps m (runSteps 3 (withPump (fun n => n + 1) (fun _ => none)
        0 0 [[]] [] [⟨[5], .grpcError⟩] : Broadcaster Nat Nat)) =
      runSteps 3 (withPump (fun n => n + 1) (fun _ => none) 0 0 [[]] []
        [⟨[5], .grpcError⟩]) :=
  strategy_exhausted_closes (fun n => n + 1) (fun _ => none) 0 [[]] []
    [5] .grpcError [] (by decide) rfl

/-- The C4 scenario: one pre-registered receiver, a strategy answering a
zero delay on its first consultation and the terminal signal on its
second, and a producer raising a transport error immediately on both
attempts. -/
def zeroDelayB : Broadcaster Nat Nat :=
  withPump (fun n => n) (fun k => if k = 0 then some 0 else none) 0 0
    [[]] [] [⟨[], .grpcError⟩, ⟨[], .grpcError⟩]

/-- C4: a zero-valued delay from `next_interval()` is treated as "retry
immediately" and is distinct from the terminal signal: with responses
zero-then-terminal and a producer erroring immediately both times, the
pump performs exactly two connection attempts (the strategy is consulted
exactly twice, the trace shows two starting-to-stream events, the zero
delay logged as a retry warning and not as a give-up, then one give-up),
the receiver sees zero items, the channel ends closed and nothing further
ever happens. -/
theorem zero_delay_retry_composition :
    (runSteps 5 zeroDelayB).calls = 2 ∧
    (runSteps 5 zeroDelayB).chan.closed = true ∧
    (runSteps 5 zeroDelayB).task = .doneOk ∧
    (runSteps 5 zeroDelayB).chan.buffers = [[]] ∧
    (runSteps 5 zeroDelayB).events =
      [.startingToStream, .retryScheduled 0, .startingToStream, .gaveUp] ∧
    ∀ m, runSteps m (runSteps 5 zeroDelayB) = runSteps 5 zeroDelayB := by
  refine ⟨rfl, rfl, rfl, rfl, rfl, ?_⟩
  intro m
  refine runSteps_halted _ ?_ m
  rfl

/-- C5: `new_receiver` first calls `start()` (observably: the restart
warning is logged and the strategy reset) exactly when the current
channel is closed, and the receiver it returns is always valid and bound
to the current (possibly just-recreated, open) channel: its generation
matches the channel generation and its buffer index exists.  The
hypothesis is the C8 invariant (a live pump implies an open channel),
which rules out a closed channel with a still-running pump. -/
theorem new_receiver_restart_spec {I O : Type} (b : Broadcaster I O)
    (hInv : taskAlive b = true → b.chan.closed = false) :
    ((new_receiver b).1.chan.closed = false) ∧
    ((new_receiver b).2.gen = (new_receiver b).1.gen) ∧
    ((new_receiver b).2.idx + 1 = (new_receiver b).1.chan.buffers.length) ∧
    (b.chan.closed = true →
      (new_receiver b).1.gen = b.gen + 1 ∧
      (new_receiver b).1.calls = 0 ∧
      (new_receiver b).1.task = .running .loopTop ∧
      (new_receiver b).1.chan.buffers = [[]] ∧
      (new_receiver b).1.events =
        b.events ++ [.restartWarning, .strategyReset]) ∧
    (b.chan.closed = false →
      (new_receiver b).1.gen = b.gen ∧
      (new_receiver b).1.task = b.task ∧
      (new_receiver b).1.events = b.events ∧
      (new_receiver b).1.chan.buffers = b.chan.buffers ++ [[]]) := by
  rcases hcl : b.chan.closed with _ | _
  · simp [new_receiver, hcl]
  · have hta : taskAlive b = false := by
      cases h2 : taskAlive b
      · rfl
      · rw [hInv h2] at hcl
        cases hcl
    have hta2 : taskAlive
        ({ b with events := b.events ++ [Event.restartWarning] }) = false :=
      hta
    simp [new_receiver, hcl, start, hta2]

/-- An idle broadcaster whose channel has closed (its pump gave up):
the state in which `new_receiver` must restart the stream. -/
def closedIdleB : Broadcaster Nat Nat :=
  ⟨fun n => n, fun _ => some 7, 3, 4, ⟨true, [[1], []]⟩, [], .doneOk, []⟩

theorem new_receiver_restart_spec_witness :
    ((new_receiver closedIdleB).1.chan.closed = false) ∧
    ((new_receiver closedIdleB).2.gen = (new_receiver closedIdleB).1.gen) ∧
    ((new_receiver closedIdleB).2.idx + 1
      = (new_receiver closedIdleB).1.chan.buffers.length) ∧
    (closedIdleB.chan.closed = true →
      (new_receiver closedIdleB).1.gen = closedIdleB.gen + 1 ∧
      (new_receiver closedIdleB).1.calls = 0 ∧
      (new_receiver closedIdleB).1.task = .running .loopTop ∧
      (new_receiver closedIdleB).1.chan.buffers = [[]] ∧
      (new_receiver closedIdleB).1.events =
        closedIdleB.events ++ [.restartWarning, .strategyReset]) ∧
    (closedIdleB.chan.closed = false →
      (new_receiver closedIdleB).1.gen = closedIdleB.gen ∧
      (new_receiver closedIdleB).1.task = closedIdleB.task ∧
      (new_receiver closedIdleB).1.events = closedIdleB.events ∧
      (new_receiver closedIdleB).1.chan.buffers
        = closedIdleB.chan.buffers ++ [[]]) :=
  new_receiver_restart_spec closedIdleB (by decide)

/-- The events a pump step may append: at most one, and never the
strategy-reset marker; and the pump never rewinds the consultation
counter (retries increment it, only `start` zeroes it). -/
lemma pumpStep_never_resets {I O : Type} (b : Broadcaster I O) :
    ((pumpStep b).events = b.events ∨
      ∃ e, (pumpStep b).events = b.events ++ [e] ∧ e ≠ Event.strategyReset) ∧
    b.calls ≤ (pumpStep b).calls := by
  unfold pumpStep
  rcases hb : b.task with _ | p | _ | _ | _
  case noTask => exact ⟨Or.inl rfl, Nat.le_refl _⟩
  case doneOk => exact ⟨Or.inl rfl, Nat.le_refl _⟩
  case cancelled => exact ⟨Or.inl rfl, Nat.le_refl _⟩
  case crashed => exact ⟨Or.inl rfl, Nat.le_refl _⟩
  case running =>
    rcases p with _ | ⟨xs, r⟩ | d | _
    case loopTop =>
      rcases b.future with _ | ⟨a, rest⟩
      · exact ⟨Or.inr ⟨.startingToStream, rfl, by decide⟩, Nat.le_refl _⟩
      · exact ⟨Or.inr ⟨.startingToStream, rfl, by decide⟩, Nat.le_refl _⟩
    case sending =>
      rcases xs with _ | ⟨x, xs⟩
      · rcases r with _ | _ | _
        · rcases b.strategy b.calls with _ | d
          · exact ⟨Or.inr ⟨.gaveUp, rfl, by decide⟩, Nat.le_succ _⟩
          · exact ⟨Or.inr ⟨.retryScheduled d, rfl, by simp⟩, Nat.le_succ _⟩
        · rcases b.strategy b.calls with _ | d
          · exact ⟨Or.inr ⟨.gaveUp, rfl, by decide⟩, Nat.le_succ _⟩
          · exact ⟨Or.inr ⟨.retryScheduled d, rfl, by simp⟩, Nat.le_succ _⟩
        · exact ⟨Or.inl rfl, Nat.le_refl _⟩
      · exact ⟨Or.inl rfl, Nat.le_refl _⟩
    case sleeping => exact ⟨Or.inl rfl, Nat.le_refl _⟩
    case blocked => exact ⟨Or.inl rfl, Nat.le_refl _⟩

/-- C6: `start` is idempotent — a no-op while a pump is live (no second
pump is spawned, nothing changes) — and on a fresh start it resets the
strategy (consultation counter zeroed, reset marker logged), replaces the
channel with a new open empty one, and spawns the pump bound to it; the
pump itself never performs a reset inside its retry loop (a pump step
never appends the reset marker and never rewinds the counter). -/
theorem start_idempotent_reset {I O : Type} (b : Broadcaster I O) :
    (taskAlive b = true → start b = b) ∧
    (taskAlive b = false →
      (start b).calls = 0 ∧
      (start b).task = .running .loopTop ∧
      (start b).chan = ⟨false, []⟩ ∧
      (start b).gen = b.gen + 1 ∧
      (start b).events = b.events ++ [.strategyReset]) ∧
    ((pumpStep b).events = b.events ∨
      ∃ e, (pumpStep b).events = b.events ++ [e] ∧ e ≠ Event.strategyReset) ∧
    b.calls ≤ (pumpStep b).calls := by
  refine ⟨?_, ?_, (pumpStep_never_resets b).1, (pumpStep_never_resets b).2⟩
  · intro h
    simp [start, h]
  · intro h
    simp [start, h]

/-- A broadcaster with a live pump and an open channel holding one
receiver with one buffered item. -/
def runningB : Broadcaster Nat Nat :=
  withPump (fun n => n) (fun _ => some 2) 1 5 [[0]] [] []

theorem start_idempotent_reset_witness :
    (taskAlive runningB = true → start runningB = runningB) ∧
    (taskAlive closedIdleB = false →
      (start closedIdleB).calls = 0 ∧
      (start closedIdleB).task = .running .loopTop ∧
      (start closedIdleB).chan = ⟨false, []⟩ ∧
      (start closedIdleB).gen = closedIdleB.gen + 1 ∧
      (start closedIdleB).events =
        closedIdleB.events ++ [.strategyReset]) :=
  ⟨(start_idempotent_reset runningB).1,
   (start_idempotent_reset closedIdleB).2.1⟩

/-- C7: `stop` is idempotent — a no-op when no pump is live — and
otherwise cancels the pump (swallowing the cancellation: the task ends in
the cancelled state, not an error) and closes the channel itself: after
`stop` the channel is closed, the strategy was not consulted again (the
counter is unchanged), the pump logged nothing further (in particular no
give-up: the close came from `stop`, not from the pump), the buffered
items are untouched, and no pump step ever delivers anything again. -/
theorem stop_spec {I O : Type} (b : Broadcaster I O) :
    (taskAlive b = false → stop b = b) ∧
    (taskAlive b = true →
      (stop b).chan.closed = true ∧
      (stop b).task = .cancelled ∧
      (stop b).calls = b.calls ∧
      (stop b).events = b.events ∧
      (stop b).chan.buffers = b.chan.buffers ∧
      ∀ m, runSteps m (stop b) = stop b) := by
  constructor
  · intro h
    simp [stop, h]
  · intro h
    refine ⟨by simp [stop, h], by simp [stop, h], by simp [stop, h],
      by simp [stop, h], by simp [stop, h], ?_⟩
    intro m
    refine runSteps_halted _ ?_ m
    simp [stop, h, halted]

theorem stop_spec_witness :
    (taskAlive closedIdleB = false → stop closedIdleB = closedIdleB) ∧
    (taskAlive runningB = true →
      (stop runningB).chan.closed = true ∧
      (stop runningB).task = .cancelled ∧
      (stop runningB).calls = runningB.calls ∧
      (stop runningB).events = runningB.events ∧
      (stop runningB).chan.buffers = runningB.chan.buffers ∧
      ∀ m, runSteps m (stop runningB) = stop runningB) :=
  ⟨(stop_spec closedIdleB).1, (stop_spec runningB).2⟩

/-- The C8 state invariant as a decidable predicate: a live pump implies
an open channel (equivalently, a closed channel implies no live pump).
The model has a single task slot, so at most one live pump exists per
broadcaster by construction. -/
def pumpInv {I O : Type} (b : Broadcaster I O) : Bool :=
  !(taskAlive b) || !(b.chan.closed)

/-- C8: the invariant holds at construction and is preserved by `start`,
`stop`, `new_receiver` and every pump step: a broadcaster whose channel
is closed has no live pump, and a live pump implies its channel is not
closed. -/
theorem pump_channel_invariant {I O : Type} (b : Broadcaster I O)
    (h : pumpInv b = true) (t : I → O) (strat : Nat → Option Nat)
    (atts : List (Attempt I)) :
    pumpInv (mkBroadcaster t strat atts) = true ∧
    pumpInv (start b) = true ∧
    pumpInv (stop b) = true ∧
    pumpInv (new_receiver b).1 = true ∧
    pumpInv (pumpStep b) = true := by
  refine ⟨rfl, ?_, ?_, ?_, ?_⟩
  · rcases hta : taskAlive b with _ | _
    · have hs1 : start b =
          { b with
            calls := 0
            events := b.events ++ [Event.strategyReset]
            task := .running .loopTop
            gen := b.gen + 1
            chan := { closed := false, buffers := [] } } := by
        simp [start, hta]
      rw [hs1]
      simp [pumpInv, taskAlive]
    · simpa [start, hta] using h
  · rcases hta : taskAlive b with _ | _
    · simpa [stop, hta] using h
    · have hs1 : stop b =
          { b with
            task := .cancelled
            chan := { b.chan with closed := true } } := by
        simp [stop, hta]
      rw [hs1]
      simp [pumpInv, taskAlive]
  · rcases hcl : b.chan.closed with _ | _
    · simp [new_receiver, hcl, pumpInv]
    · have hta : taskAlive b = false := by
        cases h2 : taskAlive b
        · rfl
        · rw [pumpInv, h2, hcl] at h
          cases h
      have hta2 : taskAlive
          ({ b with events := b.events ++ [Event.restartWarning] }) = false :=
        hta
      have hs1 : (new_receiver b).1 =
          { b with
            calls := 0
            events := b.events ++ [Event.restartWarning, Event.strategyReset]
            task := .running .loopTop
            gen := b.gen + 1
            chan := { closed := false, buffers := [[]] } } := by
        simp [new_receiver, hcl, start, hta2]
      rw [hs1]
      simp [pumpInv, taskAlive]
  · rcases hb : b.task with _ | p | _ | _ | _
    · simpa [pumpStep, hb] using h
    · have hcl : b.chan.closed = false := by
        rw [pumpInv, taskAlive, hb] at h
        simpa using h
      unfold pumpStep
      rw [hb]
      rcases p with _ | ⟨xs, r⟩ | d | _
      · rcases b.future with _ | ⟨a, rest⟩
        · simp [pumpInv, taskAlive, hcl]
        · simp [pumpInv, taskAlive, hcl]
      · rcases xs with _ | ⟨x, xs⟩
        · rcases r with _ | _ | _
          · rcases b.strategy b.calls with _ | d
            · simp [pumpInv, taskAlive]
            · simp [pumpInv, taskAlive, hcl]
          · rcases b.strategy b.calls with _ | d
            · simp [pumpInv, taskAlive]
            · simp [pumpInv, taskAlive, hcl]
          · simp [pumpInv, taskAlive]
        · simp [pumpInv, taskAlive, hcl]
      · simp [pumpInv, taskAlive, hcl]
      · simpa [pumpInv, taskAlive, hb] using h
    · simpa [pumpStep, hb] using h
    · simpa [pumpStep, hb] using h
    · simpa [pumpStep, hb] using h

theorem pump_channel_invariant_witness :
    pumpInv (mkBroadcaster (fun n => n + 3) (fun _ => some 1)
      [⟨[1], .exhausted⟩] : Broadcaster Nat Nat) = true ∧
    pumpInv (start closedIdleB) = true ∧
    pumpInv (stop closedIdleB) = true ∧
    pumpInv (new_receiver closedIdleB).1 = true ∧
    pumpInv (pumpStep closedIdleB) = true :=
  pump_channel_invariant closedIdleB (by decide) (fun n => n + 3)
    (fun _ => some 1) [⟨[1], .exhausted⟩]

/-- The crash step of `_run`: the except clause catches only
`grpc.aio.AioRpcError`, so any other exception escapes the pump task
without consulting the strategy, logging anything or touching the
channel. -/
lemma pumpStep_crash {I O : Type} (t : I → O) (strat : Nat → Option Nat)
    (c g : Nat) (cl : Bool) (bufs : List (List O)) (rest : List (Attempt I))
    (ev : List Event) :
    pumpStep (⟨t, strat, c, g, ⟨cl, bufs⟩, rest,
        .running (.sending [] .otherError), ev⟩ : Broadcaster I O) =
      ⟨t, strat, c, g, ⟨cl, bufs⟩, rest, .crashed, ev⟩ := by
  simp [pumpStep]

/-- C10: an exception that is not a `grpc.aio.AioRpcError`, raised by the
producer sequence or the transform after `xs` items were forwarded, is
not caught by the pump's except clause: the pump task terminates crashed
without consulting `next_interval()` (the counter stays at `c`) and
without closing the channel; no give-up is ever logged and the channel
stays open forever under pump steps, so existing receivers never observe
a terminal channel-closed event from this stream. -/
theorem nongrpc_error_escapes {I O : Type} (t : I → O)
    (strat : Nat → Option Nat) (c g : Nat) (bufs : List (List O))
    (ev : List Event) (xs : List I) (rest : List (Attempt I)) :
    runSteps (xs.length + 2)
        (withPump t strat c g bufs ev (⟨xs, .otherError⟩ :: rest))
      = ⟨t, strat, c, g, ⟨false, bufs.map (fun q => q ++ xs.map t)⟩, rest,
          .crashed, ev ++ [.startingToStream]⟩ ∧
    ∀ m, runSteps m (runSteps (xs.length + 2)
        (withPump t strat c g bufs ev (⟨xs, .otherError⟩ :: rest))) =
      runSteps (xs.length + 2)
        (withPump t strat c g bufs ev (⟨xs, .otherError⟩ :: rest)) := by
  have key : runSteps (xs.length + 2)
      (withPump t strat c g bufs ev (⟨xs, .otherError⟩ :: rest)) =
      ⟨t, strat, c, g, ⟨false, bufs.map (fun q => q ++ xs.map t)⟩, rest,
        .crashed, ev ++ [.startingToStream]⟩ := by
    have e1 : runSteps (xs.length + 2)
        (withPump t strat c g bufs ev (⟨xs, .otherError⟩ :: rest)) =
        runSteps 1 (runSteps xs.length
          (⟨t, strat, c, g, ⟨false, bufs⟩, rest,
            .running (.sending xs .otherError),
            ev ++ [Event.startingToStream]⟩ : Broadcaster I O)) := by
      have h := runSteps_add (xs.length + 1) 1
        (withPump t strat c g bufs ev (⟨xs, .otherError⟩ :: rest))
      rw [show xs.length + 1 + 1 = xs.length + 2 by omega] at h
      exact h
    rw [e1, runSteps_sending xs
      (⟨t, strat, c, g, ⟨false, bufs⟩, rest,
        .running (.sending xs .otherError),
        ev ++ [Event.startingToStream]⟩ : Broadcaster I O) .otherError rfl]
    exact pumpStep_crash t strat c g false
      (bufs.map (fun q => q ++ xs.map t)) rest (ev ++ [Event.startingToStream])
  refine ⟨key, ?_⟩
  intro m
  rw [key]
  refine runSteps_halted _ ?_ m
  rfl

/-- The connection state of a `BaseApiClient` as `call_stub_method`
consults it: `is_connected` is the code's `self._channel is not None`
(client.py lines 184-187), and `server_url` the configured endpoint. -/
structure SClient where
  server_url : String
  connected : Bool

/-- The outcome of awaiting the stub method call: a response, or a
transport-level `AioRpcError` with its status and detail. -/
inductive CallOutcome (A : Type) where
  | ok (response : A)
  | aioRpcError (status : String) (detail : String)
deriving DecidableEq

/-- The failures `call_stub_method` can raise.  Modelled from the spec:
the exception module defining `ClientNotConnected` and
`ApiClientError.from_grpc_error` is not among the sources, only its
callers are; per the spec the not-connected condition identifies the
server endpoint and the attempted operation, and the domain error built
from a transport error carries the endpoint, the operation name and the
transport status/detail. -/
inductive CallFailure where
  | clientNotConnected (server_url : String) (operation : String)
  | apiClientError (server_url : String) (operation : String)
      (status : String) (detail : String)
deriving DecidableEq

/-- `call_stub_method` (client.py lines 261-306): fail immediately when
the client is not connected; otherwise await the stub method, translating
an `AioRpcError` into the domain error, and apply `transform` to a
successful response exactly when one is provided (`Sum.inl` is the
untransformed response of the no-transform overload, `Sum.inr` the
transformed one). -/
def call_stub_method {A B : Type} (client : SClient) (method_name : String)
    (outcome : CallOutcome A) (transform : Option (A → B)) :
    Except CallFailure (A ⊕ B) :=
  if !client.connected then
    .error (.clientNotConnected client.server_url method_name)
  else
    match outcome with
    | .aioRpcError st det =>
        .error (.apiClientError client.server_url method_name st det)
    | .ok resp =>
        match transform with
        | none => .ok (Sum.inl resp)
        | some f => .ok (Sum.inr (f resp))

/-- C9: when the client is not connected, `call_stub_method` fails with
the not-connected condition naming the endpoint and the operation, and
the result does not depend on the stub call's outcome (the stub method is
not invoked); when connected, a transport `AioRpcError` is re-raised as
the domain error carrying endpoint, operation and status/detail; a
successful response is returned with `transform` applied exactly when one
is provided. -/
theorem call_stub_method_spec {A B : Type} (client : SClient)
    (name : String) (outcome : CallOutcome A) (tr : Option (A → B)) :
    (client.connected = false →
      call_stub_method client name outcome tr =
        .error (.clientNotConnected client.server_url name) ∧
      ∀ o2 : CallOutcome A, call_stub_method client name o2 tr =
        call_stub_method client name outcome tr) ∧
    (client.connected = true → ∀ st det,
      call_stub_method client name (.aioRpcError st det) tr =
        .error (.apiClientError client.server_url name st det)) ∧
    (client.connected = true → ∀ resp : A,
      (tr = none → call_stub_method client name (.ok resp) tr =
        .ok (Sum.inl resp)) ∧
      (∀ f, tr = some f → call_stub_method client name (.ok resp) tr =
        .ok (Sum.inr (f resp)))) := by
  refine ⟨?_, ?_, ?_⟩
  · intro h
    constructor
    · simp [call_stub_method, h]
    · intro o2
      simp [call_stub_method, h]
  · intro h st det
    simp [call_stub_method, h]
  · intro h resp
    constructor
    · intro ht
      simp [call_stub_method, h, ht]
    · intro f ht
      simp [call_stub_method, h, ht]

theorem call_stub_method_spec_witness :
    (call_stub_method (⟨"srv", false⟩ : SClient) "op"
        (CallOutcome.ok (3 : Nat)) (some (fun n => n + 1)) =
      .error (.clientNotConnected "srv" "op") ∧
      ∀ o2 : CallOutcome Nat,
        call_stub_method (⟨"srv", false⟩ : SClient) "op" o2
          (some (fun n => n + 1)) =
        call_stub_method (⟨"srv", false⟩ : SClient) "op"
          (CallOutcome.ok 3) (some (fun n => n + 1))) ∧
    (call_stub_method (⟨"srv", true⟩ : SClient) "op"
        (CallOutcome.aioRpcError "UNAVAILABLE" "boom")
        (some (fun n : Nat => n + 1)) =
      .error (.apiClientError "srv" "op" "UNAVAILABLE" "boom")) ∧
    (call_stub_method (⟨"srv", true⟩ : SClient) "op"
        (CallOutcome.ok (3 : Nat)) (some (fun n => n + 1)) =
      .ok (Sum.inr 4)) :=
  ⟨(call_stub_method_spec ⟨"srv", false⟩ "op"
      (CallOutcome.ok 3) (some (fun n => n + 1))).1 rfl,
   (call_stub_method_spec ⟨"srv", true⟩ "op"
      (CallOutcome.ok 3) (some (fun n => n + 1))).2.1 rfl "UNAVAILABLE" "boom",
   ((call_stub_method_spec ⟨"srv", true⟩ "op"
      (CallOutcome.ok 3) (some (fun n => n + 1))).2.2 rfl 3).2
     (fun n => n + 1) rfl⟩

end FrequenzClientBase
